import Mathlib

/-!
A shallow embedding of the QR-code generator workflow implemented in
`generator.py` (class `QRCodeGenerator`), and proofs of the specified
properties of its generate/save/clear operations and its parameter
resolver.

External capabilities (the qrcode encoder, PIL resize, tkinter PhotoImage
conversion, the save-path dialog, and the image writer) are modelled as an
environment of oracle functions: each invocation of an operation is given
an environment describing what the external calls return on that
invocation, so theorems quantifying over environments cover every possible
behaviour of the external libraries.  Images are opaque handles.  The
display-layer conversions (resize to 300x300, PhotoImage) are modelled as
total functions: they operate on an already produced image and have no
failure mode relevant to the workflow.
-/

/-- An opaque handle standing for a raster image produced by the external
encoder (`qr.make_image`) or by a display conversion. -/
structure Img where
  id : Nat
deriving DecidableEq

/-- The environment of external capabilities consumed during one user
action: `encode` stands for the `qrcode.QRCode(...)/add_data/make/make_image`
sequence (arguments: data, error_correction, box_size, border), `resize`
for `PIL resize((300,300), LANCZOS)`, `toPhoto` for `ImageTk.PhotoImage`,
`askPath` for the result of `filedialog.asksaveasfilename` (the empty
string on cancel, as in tkinter), and `write` for `image.save(filename)`. -/
structure Env where
  encode : String → Nat → Nat → Nat → Except String Img
  resize : Img → Img
  toPhoto : Img → Img
  askPath : String
  write : Img → String → Except String Unit

/-- The mutable state of the `QRCodeGenerator` object: the held artifact
`self.qr_image`, `self.current_data`, the display photo reference, the
widgets' observable state (entry text, combobox variables, label contents,
save-button enabled state) and the status line. -/
structure AppState where
  qr_image : Option Img
  current_data : String
  photo : Option Img
  url_entry : String
  size_var : String
  error_var : String
  save_btn_enabled : Bool
  qr_label_image : Option Img
  qr_label_text : String
  status_var : String
deriving DecidableEq

/-- The user-visible outcome of one `generate_qr_code` call: the
validation messagebox, the failure messagebox carrying the underlying
exception text, or success. -/
inductive GenOutcome where
  | emptyInput (msg : String)
  | genError (msg : String)
  | success
deriving DecidableEq

/-- The user-visible outcome of one `save_qr_code` call: the no-artifact
warning, silent return after a cancelled dialog, the success messagebox
carrying the chosen filename, or the failure messagebox carrying the
underlying exception text. -/
inductive SaveOutcome where
  | noArtifact (msg : String)
  | cancelled
  | saved (msg : String)
  | saveError (msg : String)
deriving DecidableEq

/-- `qrcode.constants.ERROR_CORRECT_L` (~7% recoverable). -/
def ERROR_CORRECT_L : Nat := 1

/-- `qrcode.constants.ERROR_CORRECT_M` (~15% recoverable). -/
def ERROR_CORRECT_M : Nat := 0

/-- `qrcode.constants.ERROR_CORRECT_Q` (~25% recoverable). -/
def ERROR_CORRECT_Q : Nat := 3

/-- `qrcode.constants.ERROR_CORRECT_H` (~30% recoverable). -/
def ERROR_CORRECT_H : Nat := 2

/-- `QRCodeGenerator.get_size_params`: the `size_map` dictionary lookup
with default `(10, 4)`. -/
def get_size_params (size_var : String) : Nat × Nat :=
  if size_var = "Small" then (8, 2)
  else if size_var = "Medium" then (10, 4)
  else if size_var = "Large" then (15, 6)
  else (10, 4)

/-- `QRCodeGenerator.get_error_correction`: the `error_map` dictionary
lookup with default `ERROR_CORRECT_M`. -/
def get_error_correction (error_var : String) : Nat :=
  if error_var = "Low" then ERROR_CORRECT_L
  else if error_var = "Medium" then ERROR_CORRECT_M
  else if error_var = "High" then ERROR_CORRECT_Q
  else if error_var = "Highest" then ERROR_CORRECT_H
  else ERROR_CORRECT_M

/-- Python `str.strip()`: drop leading and trailing whitespace
characters. -/
def pyStrip (s : String) : String :=
  String.mk (((s.data.dropWhile Char.isWhitespace).reverse.dropWhile
    Char.isWhitespace).reverse)

/-- `os.path.basename` for the slash-separated paths the status line
reports. -/
def basename (path : String) : String :=
  (path.splitOn "/").getLastD path

/-- `QRCodeGenerator.generate_qr_code`.  `data = self.url_entry.get().strip()`;
empty data shows the validation messagebox and returns with the state
untouched; otherwise the status is set, the parameters resolved, and the
external encoder invoked.  If the encoder raises, the `except` clause
shows the failure messagebox and sets the error status; on success the
new image is stored in `self.qr_image`, the display is updated, the data
recorded, the save button enabled, and the success status (carrying the
first 50 characters of the data) set. -/
def generate_qr_code (env : Env) (s : AppState) : AppState × GenOutcome :=
  let data := pyStrip s.url_entry
  if data = "" then
    (s, GenOutcome.emptyInput "Please enter a URL or text to generate QR code")
  else
    let s1 := { s with status_var := "Generating QR code..." }
    let box_size := (get_size_params s.size_var).1
    let border := (get_size_params s.size_var).2
    let error_correction := get_error_correction s.error_var
    match env.encode data error_correction box_size border with
    | Except.error e =>
      ({ s1 with status_var := "Error generating QR code" },
       GenOutcome.genError ("Failed to generate QR code: " ++ e))
    | Except.ok img =>
      let display_image := env.resize img
      let photo := env.toPhoto display_image
      ({ s1 with
          qr_image := some img,
          photo := some photo,
          qr_label_image := some photo,
          qr_label_text := "",
          current_data := data,
          save_btn_enabled := true,
          status_var := "QR code generated successfully for: " ++ data.take 50 ++ "..." },
       GenOutcome.success)

/-- `QRCodeGenerator.save_qr_code`.  With no held artifact it shows the
warning and returns without prompting; otherwise it asks for a path
(`""` on cancel, making `if filename:` false, a silent no-op), writes the
image, and reports success with the file's base name or the failure
messagebox on a write error. -/
def save_qr_code (env : Env) (s : AppState) : AppState × SaveOutcome :=
  match s.qr_image with
  | none =>
    (s, SaveOutcome.noArtifact "No QR code to save. Please generate one first.")
  | some img =>
    let filename := env.askPath
    if filename = "" then
      (s, SaveOutcome.cancelled)
    else
      match env.write img filename with
      | Except.ok _ =>
        ({ s with status_var := "QR code saved to: " ++ basename filename },
         SaveOutcome.saved ("QR code saved successfully to:\n" ++ filename))
      | Except.error e =>
        ({ s with status_var := "Error saving QR code" },
         SaveOutcome.saveError ("Failed to save QR code: " ++ e))

/-- `QRCodeGenerator.clear_form`: unconditionally resets the entry to the
placeholder, the display label, the held artifact, both combobox tiers,
the save button and the status line.  A total function: no failure mode. -/
def clear_form (s : AppState) : AppState :=
  { s with
      url_entry := "https://example.com",
      qr_label_image := none,
      qr_label_text := "QR Code will appear here",
      qr_image := none,
      size_var := "Medium",
      error_var := "Medium",
      save_btn_enabled := false,
      status_var := "Form cleared - Ready to generate QR codes" }

/-- The state established by `__init__` and `setup_ui`: no artifact, empty
current data, the placeholder entry text, both tiers defaulted to Medium,
the save button disabled (`state=disabled` at construction), the
placeholder label and the initial status line. -/
def initState : AppState :=
  { qr_image := none,
    current_data := "",
    photo := none,
    url_entry := "https://example.com",
    size_var := "Medium",
    error_var := "Medium",
    save_btn_enabled := false,
    qr_label_image := none,
    qr_label_text := "QR Code will appear here",
    status_var := "Ready to generate QR codes" }

/-- One user intent, carrying the environment of external-call results for
that invocation. -/
inductive Event where
  | generate (env : Env)
  | save (env : Env)
  | clear

/-- The state transformer of one user action (the outcome is dropped). -/
def step : Event → AppState → AppState
  | Event.generate env, s => (generate_qr_code env s).1
  | Event.save env, s => (save_qr_code env s).1
  | Event.clear, s => clear_form s

/-- The states the workflow can reach from the initial state by any
sequence of user actions with any external-call results. -/
inductive Reachable : AppState → Prop where
  | init : Reachable initState
  | next : ∀ (e : Event) (s : AppState), Reachable s → Reachable (step e s)

/-- C3: the parameter resolver is a pure total function mapping
Small to (8,2), Medium to (10,4), Large to (15,6), and Low, Medium, High,
Highest to the encoder levels L, M, Q, H, with any other (unrecognized or
missing) tier value mapped to the Medium default. -/
theorem c3_param_resolver :
    (get_size_params "Small" = (8, 2) ∧
     get_size_params "Medium" = (10, 4) ∧
     get_size_params "Large" = (15, 6)) ∧
    (get_error_correction "Low" = ERROR_CORRECT_L ∧
     get_error_correction "Medium" = ERROR_CORRECT_M ∧
     get_error_correction "High" = ERROR_CORRECT_Q ∧
     get_error_correction "Highest" = ERROR_CORRECT_H) ∧
    (∀ s : String, s ≠ "Small" → s ≠ "Medium" → s ≠ "Large" →
       get_size_params s = (10, 4)) ∧
    (∀ s : String, s ≠ "Low" → s ≠ "Medium" → s ≠ "High" → s ≠ "Highest" →
       get_error_correction s = ERROR_CORRECT_M) := by
  refine ⟨⟨rfl, rfl, rfl⟩, ⟨rfl, rfl, rfl, rfl⟩, ?_, ?_⟩
  · intro s h1 h2 h3
    simp [get_size_params, h1, h2, h3]
  · intro s h1 h2 h3 h4
    simp [get_error_correction, h1, h2, h3, h4]

/-- Witness for C3: the fallback branches evaluated at the unrecognized
tier value "Tiny" and at the missing (empty) tier value. -/
theorem c3_param_resolver_witness :
    get_size_params "Tiny" = (10, 4) ∧ get_error_correction "" = ERROR_CORRECT_M :=
  ⟨c3_param_resolver.2.2.1 "Tiny" (by decide) (by decide) (by decide),
   c3_param_resolver.2.2.2 "" (by decide) (by decide) (by decide) (by decide)⟩

/-- C4: when the entry text trims to the empty string, generate shows the
ValidationError messagebox, leaves the state untouched, and never invokes
the external encoder (the result is the same for every environment). -/
theorem c4_generate_empty (env env2 : Env) (s : AppState)
    (h : pyStrip s.url_entry = "") :
    (generate_qr_code env s).1 = s ∧
    (generate_qr_code env s).2 =
      GenOutcome.emptyInput "Please enter a URL or text to generate QR code" ∧
    generate_qr_code env s = generate_qr_code env2 s := by
  refine ⟨?_, ?_, ?_⟩ <;> simp [generate_qr_code, h]

/-- Witness for C4: generate on an all-whitespace entry, under two
environments whose encoders disagree everywhere. -/
theorem c4_generate_empty_witness :
    (generate_qr_code
        { encode := fun _ _ _ _ => Except.ok ⟨0⟩, resize := id, toPhoto := id,
          askPath := "", write := fun _ _ => Except.ok () }
        { initState with url_entry := "   " }).1 =
      { initState with url_entry := "   " } ∧
    (generate_qr_code
        { encode := fun _ _ _ _ => Except.ok ⟨0⟩, resize := id, toPhoto := id,
          askPath := "", write := fun _ _ => Except.ok () }
        { initState with url_entry := "   " }).2 =
      GenOutcome.emptyInput "Please enter a URL or text to generate QR code" ∧
    generate_qr_code
        { encode := fun _ _ _ _ => Except.ok ⟨0⟩, resize := id, toPhoto := id,
          askPath := "", write := fun _ _ => Except.ok () }
        { initState with url_entry := "   " } =
      generate_qr_code
        { encode := fun _ _ _ _ => Except.error "boom", resize := id, toPhoto := id,
          askPath := "", write := fun _ _ => Except.ok () }
        { initState with url_entry := "   " } :=
  c4_generate_empty _ _ _ (by decide)

/-- C9: clear, from any state, resets the workflow: it discards the held
artifact, resets both tiers to Medium, restores the placeholder entry
text and display label, disables the save button, and sets the cleared
status; being a total function it has no failure mode. -/
theorem c9_clear_form (s : AppState) :
    clear_form s =
      { s with
          qr_image := none,
          url_entry := "https://example.com",
          qr_label_image := none,
          qr_label_text := "QR Code will appear here",
          size_var := "Medium",
          error_var := "Medium",
          save_btn_enabled := false,
          status_var := "Form cleared - Ready to generate QR codes" } := rfl

/-- C1: when the external encoding/image-production call raises, generate
surfaces the failure messagebox carrying the underlying message (a
GenerationError), stores no new artifact, and leaves the previously held
artifact (if any) untouched. -/
theorem c1_generate_error (env : Env) (s : AppState) (e : String)
    (hne : pyStrip s.url_entry ≠ "")
    (henc : env.encode (pyStrip s.url_entry) (get_error_correction s.error_var)
        (get_size_params s.size_var).1 (get_size_params s.size_var).2 =
      Except.error e) :
    (generate_qr_code env s).2 =
      GenOutcome.genError ("Failed to generate QR code: " ++ e) ∧
    (generate_qr_code env s).1.qr_image = s.qr_image := by
  constructor <;> simp [generate_qr_code, hne, henc]

/-- Witness for C1: an encoder raising "Data overflow" on a state that
holds a prior artifact; the messagebox carries the message and the prior
artifact survives. -/
theorem c1_generate_error_witness :
    (generate_qr_code
        { encode := fun _ _ _ _ => Except.error "Data overflow", resize := id,
          toPhoto := id, askPath := "", write := fun _ _ => Except.ok () }
        { initState with qr_image := some ⟨5⟩ }).2 =
      GenOutcome.genError ("Failed to generate QR code: " ++ "Data overflow") ∧
    (generate_qr_code
        { encode := fun _ _ _ _ => Except.error "Data overflow", resize := id,
          toPhoto := id, askPath := "", write := fun _ _ => Except.ok () }
        { initState with qr_image := some ⟨5⟩ }).1.qr_image = some ⟨5⟩ :=
  c1_generate_error _ _ "Data overflow" (by decide) rfl

/-- C5: when the external encoder succeeds, generate stores the produced
image as the current artifact, records the (stripped) input text as the
current data, and sets a success status carrying the first 50 characters
of that input. -/
theorem c5_generate_success (env : Env) (s : AppState) (img : Img)
    (hne : pyStrip s.url_entry ≠ "")
    (henc : env.encode (pyStrip s.url_entry) (get_error_correction s.error_var)
        (get_size_params s.size_var).1 (get_size_params s.size_var).2 =
      Except.ok img) :
    (generate_qr_code env s).1.qr_image = some img ∧
    (generate_qr_code env s).1.current_data = pyStrip s.url_entry ∧
    (generate_qr_code env s).1.status_var =
      "QR code generated successfully for: " ++
        (pyStrip s.url_entry).take 50 ++ "..." ∧
    (generate_qr_code env s).2 = GenOutcome.success := by
  refine ⟨?_, ?_, ?_, ?_⟩ <;> simp [generate_qr_code, hne, henc]

/-- Witness for C5: a successful generate from the initial state stores
image 7, records "https://example.com", and reports it in the status. -/
theorem c5_generate_success_witness :
    (generate_qr_code
        { encode := fun _ _ _ _ => Except.ok ⟨7⟩, resize := id, toPhoto := id,
          askPath := "", write := fun _ _ => Except.ok () }
        initState).1.qr_image = some ⟨7⟩ ∧
    (generate_qr_code
        { encode := fun _ _ _ _ => Except.ok ⟨7⟩, resize := id, toPhoto := id,
          askPath := "", write := fun _ _ => Except.ok () }
        initState).1.current_data = pyStrip initState.url_entry ∧
    (generate_qr_code
        { encode := fun _ _ _ _ => Except.ok ⟨7⟩, resize := id, toPhoto := id,
          askPath := "", write := fun _ _ => Except.ok () }
        initState).1.status_var =
      "QR code generated successfully for: " ++
        (pyStrip initState.url_entry).take 50 ++ "..." ∧
    (generate_qr_code
        { encode := fun _ _ _ _ => Except.ok ⟨7⟩, resize := id, toPhoto := id,
          askPath := "", write := fun _ _ => Except.ok () }
        initState).2 = GenOutcome.success :=
  c5_generate_success _ _ ⟨7⟩ (by decide) rfl

/-- C10: a generate whose encoding step fails while a prior artifact is
held leaves the workflow in Ready: the resulting state equals the prior
state with only the status text changed, so the prior artifact stays
held, the prior current data stays recorded, and the save button stays
enabled. -/
theorem c10_generate_error_keeps_ready (env : Env) (s : AppState)
    (img : Img) (e : String)
    (hheld : s.qr_image = some img)
    (hsave : s.save_btn_enabled = true)
    (hne : pyStrip s.url_entry ≠ "")
    (henc : env.encode (pyStrip s.url_entry) (get_error_correction s.error_var)
        (get_size_params s.size_var).1 (get_size_params s.size_var).2 =
      Except.error e) :
    (generate_qr_code env s).1 = { s with status_var := "Error generating QR code" } ∧
    (generate_qr_code env s).1.qr_image = some img ∧
    (generate_qr_code env s).1.current_data = s.current_data ∧
    (generate_qr_code env s).1.save_btn_enabled = true := by
  refine ⟨?_, ?_, ?_, ?_⟩ <;> simp [generate_qr_code, hne, henc, hheld, hsave]

/-- Witness for C10: the failing generate applied to a Ready state holding
image 5 with current data "https://example.com". -/
theorem c10_generate_error_keeps_ready_witness :
    (generate_qr_code
        { encode := fun _ _ _ _ => Except.error "Data overflow", resize := id,
          toPhoto := id, askPath := "", write := fun _ _ => Except.ok () }
        { initState with qr_image := some ⟨5⟩, current_data := "https://example.com",
                         save_btn_enabled := true }).1 =
      { initState with qr_image := some ⟨5⟩, current_data := "https://example.com",
                       save_btn_enabled := true,
                       status_var := "Error generating QR code" } ∧
    (generate_qr_code
        { encode := fun _ _ _ _ => Except.error "Data overflow", resize := id,
          toPhoto := id, askPath := "", write := fun _ _ => Except.ok () }
        { initState with qr_image := some ⟨5⟩, current_data := "https://example.com",
                         save_btn_enabled := true }).1.qr_image = some ⟨5⟩ ∧
    (generate_qr_code
        { encode := fun _ _ _ _ => Except.error "Data overflow", resize := id,
          toPhoto := id, askPath := "", write := fun _ _ => Except.ok () }
        { initState with qr_image := some ⟨5⟩, current_data := "https://example.com",
                         save_btn_enabled := true }).1.current_data =
      ({ initState with qr_image := some ⟨5⟩, current_data := "https://example.com",
                        save_btn_enabled := true } : AppState).current_data ∧
    (generate_qr_code
        { encode := fun _ _ _ _ => Except.error "Data overflow", resize := id,
          toPhoto := id, askPath := "", write := fun _ _ => Except.ok () }
        { initState with qr_image := some ⟨5⟩, current_data := "https://example.com",
                         save_btn_enabled := true }).1.save_btn_enabled = true :=
  c10_generate_error_keeps_ready _ _ ⟨5⟩ "Data overflow" rfl rfl (by decide) rfl

/-- C6: save invoked with no held artifact shows the NoArtifactError
warning, leaves the state untouched, and never invokes path selection
(the result is the same for every environment, in particular for every
dialog answer). -/
theorem c6_save_no_artifact (env env2 : Env) (s : AppState)
    (h : s.qr_image = none) :
    (save_qr_code env s).1 = s ∧
    (save_qr_code env s).2 =
      SaveOutcome.noArtifact "No QR code to save. Please generate one first." ∧
    save_qr_code env s = save_qr_code env2 s := by
  refine ⟨?_, ?_, ?_⟩ <;> simp [save_qr_code, h]

/-- Witness for C6: save in the initial (Empty) state under two
environments whose dialogs answer differently. -/
theorem c6_save_no_artifact_witness :
    (save_qr_code
        { encode := fun _ _ _ _ => Except.ok ⟨0⟩, resize := id, toPhoto := id,
          askPath := "a.png", write := fun _ _ => Except.ok () } initState).1 =
      initState ∧
    (save_qr_code
        { encode := fun _ _ _ _ => Except.ok ⟨0⟩, resize := id, toPhoto := id,
          askPath := "a.png", write := fun _ _ => Except.ok () } initState).2 =
      SaveOutcome.noArtifact "No QR code to save. Please generate one first." ∧
    save_qr_code
        { encode := fun _ _ _ _ => Except.ok ⟨0⟩, resize := id, toPhoto := id,
          askPath := "a.png", write := fun _ _ => Except.ok () } initState =
      save_qr_code
        { encode := fun _ _ _ _ => Except.ok ⟨0⟩, resize := id, toPhoto := id,
          askPath := "", write := fun _ _ => Except.error "disk full" } initState :=
  c6_save_no_artifact _ _ _ rfl

/-- C7: save in a Ready state with a cancelled path dialog is a no-op:
the state (hence Ready) is unchanged, the outcome carries no error, and
the persistence capability is never invoked (the result is the same for
every write oracle). -/
theorem c7_save_cancel (env : Env) (s : AppState) (img : Img)
    (hheld : s.qr_image = some img)
    (hcancel : env.askPath = "") :
    (save_qr_code env s).1 = s ∧
    (save_qr_code env s).2 = SaveOutcome.cancelled ∧
    (∀ w : Img → String → Except String Unit,
      save_qr_code { env with write := w } s = save_qr_code env s) := by
  refine ⟨?_, ?_, ?_⟩ <;> simp [save_qr_code, hheld, hcancel]

/-- Witness for C7: a cancelled save on a Ready state holding image 5. -/
theorem c7_save_cancel_witness :
    (save_qr_code
        { encode := fun _ _ _ _ => Except.ok ⟨0⟩, resize := id, toPhoto := id,
          askPath := "", write := fun _ _ => Except.ok () }
        { initState with qr_image := some ⟨5⟩, save_btn_enabled := true }).1 =
      { initState with qr_image := some ⟨5⟩, save_btn_enabled := true } ∧
    (save_qr_code
        { encode := fun _ _ _ _ => Except.ok ⟨0⟩, resize := id, toPhoto := id,
          askPath := "", write := fun _ _ => Except.ok () }
        { initState with qr_image := some ⟨5⟩, save_btn_enabled := true }).2 =
      SaveOutcome.cancelled ∧
    (∀ w : Img → String → Except String Unit,
      save_qr_code
          { encode := fun _ _ _ _ => Except.ok ⟨0⟩, resize := id, toPhoto := id,
            askPath := "", write := w }
          { initState with qr_image := some ⟨5⟩, save_btn_enabled := true } =
        save_qr_code
          { encode := fun _ _ _ _ => Except.ok ⟨0⟩, resize := id, toPhoto := id,
            askPath := "", write := fun _ _ => Except.ok () }
          { initState with qr_image := some ⟨5⟩, save_btn_enabled := true }) :=
  c7_save_cancel _ _ ⟨5⟩ rfl rfl

/-- C8: save never mutates the held artifact, the recorded current data,
or the save-button state, under any outcome (no artifact, cancellation,
successful write, or write failure); in particular a PersistenceError
leaves the artifact held. -/
theorem c8_save_frame (env : Env) (s : AppState) :
    (save_qr_code env s).1.qr_image = s.qr_image ∧
    (save_qr_code env s).1.current_data = s.current_data ∧
    (save_qr_code env s).1.save_btn_enabled = s.save_btn_enabled := by
  cases h : s.qr_image with
  | none => simp [save_qr_code, h]
  | some img =>
    by_cases hc : env.askPath = ""
    · simp [save_qr_code, h, hc]
    · cases hw : env.write img env.askPath <;> simp [save_qr_code, h, hc, hw]

/-- C2: in every reachable workflow state the save button is enabled
exactly when an artifact is held, and in the initial state no artifact is
held and the save button is disabled. -/
theorem c2_save_iff_artifact :
    (∀ s : AppState, Reachable s →
      (s.save_btn_enabled = true ↔ s.qr_image ≠ none)) ∧
    initState.qr_image = none ∧ initState.save_btn_enabled = false := by
  constructor
  · intro s h
    induction h with
    | init => simp [initState]
    | next e t ht ih =>
      cases e with
      | clear => simp [step, clear_form]
      | generate env =>
        simp only [step]
        by_cases hne : pyStrip t.url_entry = ""
        · simpa [generate_qr_code, hne] using ih
        · cases henc : env.encode (pyStrip t.url_entry)
              (get_error_correction t.error_var)
              (get_size_params t.size_var).1 (get_size_params t.size_var).2 with
          | error e => simpa [generate_qr_code, hne, henc] using ih
          | ok img => simp [generate_qr_code, hne, henc]
      | save env =>
        simp only [step]
        cases hq : t.qr_image with
        | none => simpa [save_qr_code, hq] using ih
        | some img =>
          by_cases hc : env.askPath = ""
          · simpa [save_qr_code, hq, hc] using ih
          · cases hw : env.write img env.askPath <;>
              simpa [save_qr_code, hq, hc, hw] using ih
  · exact ⟨rfl, rfl⟩

/-- Witness for C2: the invariant instantiated at the (reachable) initial
state. -/
theorem c2_save_iff_artifact_witness :
    initState.save_btn_enabled = true ↔ initState.qr_image ≠ none :=
  c2_save_iff_artifact.1 initState Reachable.init
